import Mathlib

/-!
Shallow embedding of pkg/github/discussions.go: the six discussion tool
handlers of the github-mcp-server repository (list_discussions,
get_discussion, get_discussion_categories, get_discussion_comments,
add_discussion_comment, create_discussion), together with their declared
tool parameter schemas.

Each Go handler is embedded as a validation function (the parameter
extraction lines of the handler) followed by a network phase (the
getClient / client call / status check / marshal lines, identical in shape
across the six handlers up to the success status code and the two
operation-specific message strings).  The upstream environment (client
acquisition, the single REST call, the HTTP status, the response body and
the returned object) is an explicit record, and JSON serialization of the
upstream object — delegated in Go to the external encoding/json library —
is a function parameter.
-/

/-- A JSON-ish argument value carried by a tool call request
(mcp.CallToolRequest arguments are an untyped string-keyed map; numbers
arrive as float64, modelled here as Int since every number the handlers
consume is integral). -/
inductive Value where
  | str (s : String)
  | num (n : Int)
  | bool (b : Bool)
deriving DecidableEq, Repr

/-- The primitive type name of an argument value, as declared in a tool
schema. -/
def Value.typeOf : Value → String
  | .str _ => "string"
  | .num _ => "number"
  | .bool _ => "bool"

/-- A tool call request: the argument map of mcp.CallToolRequest. -/
def Request := List (String × Value)

/-- Look an argument up by name in a request. -/
def lookupArg : Request → String → Option Value
  | [], _ => none
  | (k, v) :: rest, n => if k = n then some v else lookupArg rest n

/-- Modelled from the spec: the helper requiredParam[string] of the
github-mcp-server repository is not under src/.  Per the spec, every
required parameter must be present and of the expected primitive type,
else a parameter error is reported; per the spec's example, a required
string supplied as the empty string also fails validation (the test suite
expects the message "missing required parameter: body" for body = ""). -/
def requiredStringParam (req : Request) (name : String) : Except String String :=
  match lookupArg req name with
  | none => .error ("missing required parameter: " ++ name)
  | some (.str s) =>
      if s = "" then .error ("missing required parameter: " ++ name)
      else .ok s
  | some _ => .error ("parameter " ++ name ++ " is not of type string")

/-- Modelled from the spec: the helper RequiredInt of the
github-mcp-server repository is not under src/.  Per the spec, the
parameter must be present and of number type, else a parameter error is
reported. -/
def RequiredInt (req : Request) (name : String) : Except String Int :=
  match lookupArg req name with
  | none => .error ("missing required parameter: " ++ name)
  | some (.num n) => .ok n
  | some _ => .error ("parameter " ++ name ++ " is not of type number")

/-- Modelled from the spec: the helper OptionalParam[string] of the
github-mcp-server repository is not under src/.  An absent optional
parameter yields the zero value ""; a present one must be a string, else a
parameter error is reported. -/
def OptionalStringParam (req : Request) (name : String) : Except String String :=
  match lookupArg req name with
  | none => .ok ""
  | some (.str s) => .ok s
  | some _ => .error ("parameter " ++ name ++ " is not of type string")

/-- Modelled from the spec: optional integer parameter extraction used by
the pagination helper, not under src/.  An absent parameter yields the
zero value; a present one must be a number. -/
def OptionalIntParam (req : Request) (name : String) : Except String Int :=
  match lookupArg req name with
  | none => .ok 0
  | some (.num n) => .ok n
  | some _ => .error ("parameter " ++ name ++ " is not of type number")

/-- The pagination values extracted from a request. -/
structure PaginationParams where
  page : Int
  perPage : Int
deriving DecidableEq, Repr

/-- Modelled from the spec: the helper OptionalPaginationParams of the
github-mcp-server repository is not under src/.  Per the spec, pagination
parameters, when supplied, are forwarded unchanged; the spec does not
constrain the absent case, modelled here as the zero value. -/
def OptionalPaginationParams (req : Request) : Except String PaginationParams :=
  match OptionalIntParam req "page" with
  | .error e => .error e
  | .ok page =>
    match OptionalIntParam req "perPage" with
    | .error e => .error e
    | .ok perPage => .ok { page := page, perPage := perPage }

/-- github.ListOptions: the page / per-page fields of an upstream list
request. -/
structure ListOptions where
  page : Int
  perPage : Int
deriving DecidableEq, Repr

/-- github.DiscussionListOptions, zero-valued as in
opts := &github.DiscussionListOptions\x7b\x7d. -/
structure DiscussionListOptions where
  direction : String := ""
  categoryID : String := ""
  pinned : Option Bool := none
  listOptions : ListOptions := { page := 0, perPage := 0 }
deriving DecidableEq, Repr

/-- github.DiscussionCommentListOptions (only its embedded ListOptions is
ever set by the handlers). -/
structure DiscussionCommentListOptions where
  listOptions : ListOptions
deriving DecidableEq, Repr

/-- github.DiscussionComment as built by AddDiscussionComment (only the
Body field is set). -/
structure DiscussionComment where
  body : String
deriving DecidableEq, Repr

/-- github.DiscussionRequest as built by CreateDiscussion. -/
structure DiscussionRequest where
  title : String
  body : String
  categoryID : String
deriving DecidableEq, Repr

/-- A tool call result: mcp.NewToolResultError produces an error-flagged
textual result, mcp.NewToolResultText a plain textual result. -/
inductive CallToolResult where
  | errorResult (text : String)
  | textResult (text : String)
deriving DecidableEq, Repr

/-- The upstream environment a handler runs against: whether getClient
fails, whether the single client call fails at the transport level, the
HTTP status code and raw body of the response, whether reading that body
fails, and the object the client returned (of payload type alpha). -/
structure Upstream (α : Type) where
  getClientErr : Option String
  callErr : Option String
  status : Nat
  bodyReadErr : Option String
  body : String
  payload : α

/-- The observable outcome of one handler invocation: the returned
(*mcp.CallToolResult, error) pair, whether getClient was ever invoked, and
the list of requests issued to the upstream service (each carrying the
arguments it was issued with). -/
structure HandlerRun (ω : Type) where
  result : Option CallToolResult
  goErr : Option String
  clientObtained : Bool
  calls : List ω

/-- The run produced when parameter validation fails: a tool-level error
result, no Go error, and no upstream activity. -/
def paramErrorRun {ω : Type} (e : String) : HandlerRun ω :=
  { result := some (.errorResult e), goErr := none, clientObtained := false, calls := [] }

/-- The network phase shared by all six handlers: obtain the client (a
wrapped hard error if that fails), issue the single upstream call (a
wrapped hard error on transport failure), check the status against the
documented success code (forwarding the raw body as a tool error
otherwise, or a hard error if the body cannot be read), and marshal the
returned object to the textual payload (a hard error if marshalling
fails).  callMsg and marshalMsg are the two operation-specific message
strings of the Go handler. -/
def networkPhase {α ω : Type} (callMsg marshalMsg : String) (successCode : Nat)
    (call : ω) (up : Upstream α) (marshal : α → Except String String) : HandlerRun ω :=
  match up.getClientErr with
  | some e =>
      { result := none, goErr := some ("failed to get GitHub client: " ++ e),
        clientObtained := true, calls := [] }
  | none =>
    match up.callErr with
    | some e =>
        { result := none, goErr := some (callMsg ++ ": " ++ e),
          clientObtained := true, calls := [call] }
    | none =>
      if up.status ≠ successCode then
        match up.bodyReadErr with
        | some e =>
            { result := none, goErr := some ("failed to read response body: " ++ e),
              clientObtained := true, calls := [call] }
        | none =>
            { result := some (.errorResult (callMsg ++ ": " ++ up.body)), goErr := none,
              clientObtained := true, calls := [call] }
      else
        match marshal up.payload with
        | .error e =>
            { result := none, goErr := some (marshalMsg ++ ": " ++ e),
              clientObtained := true, calls := [call] }
        | .ok s =>
            { result := some (.textResult s), goErr := none,
              clientObtained := true, calls := [call] }

/-- The validated arguments of list_discussions, which are exactly the
arguments of the single upstream call client.Discussions.ListDiscussions. -/
structure ListDiscussionsArgs where
  owner : String
  repo : String
  opts : DiscussionListOptions
deriving DecidableEq, Repr

/-- Parameter extraction of the list_discussions handler
(discussions.go lines 43-90): required owner and repo, optional direction,
category_id and pinned filters (direction and category_id are copied into
the options only when non-empty; pinned only when exactly "true" or
"false"), and pagination. -/
def listDiscussionsValidate (req : Request) : Except String ListDiscussionsArgs :=
  match requiredStringParam req "owner" with
  | .error e => .error e
  | .ok owner =>
  match requiredStringParam req "repo" with
  | .error e => .error e
  | .ok repo =>
  match OptionalStringParam req "direction" with
  | .error e => .error e
  | .ok direction =>
  match OptionalStringParam req "category_id" with
  | .error e => .error e
  | .ok categoryID =>
  match OptionalStringParam req "pinned" with
  | .error e => .error e
  | .ok pinnedStr =>
  match OptionalPaginationParams req with
  | .error e => .error e
  | .ok pagination =>
    let opts0 : DiscussionListOptions := {}
    let opts1 := if direction ≠ "" then { opts0 with direction := direction } else opts0
    let opts2 := if categoryID ≠ "" then { opts1 with categoryID := categoryID } else opts1
    let opts3 :=
      if pinnedStr = "true" then { opts2 with pinned := some true }
      else if pinnedStr = "false" then { opts2 with pinned := some false }
      else opts2
    let opts4 := { opts3 with
                   listOptions := { page := pagination.page, perPage := pagination.perPage } }
    .ok { owner := owner, repo := repo, opts := opts4 }

/-- The list_discussions handler (discussions.go lines 42-116): validate,
then run the network phase expecting status 200. -/
def listDiscussionsHandler {α : Type} (marshal : α → Except String String)
    (req : Request) (up : Upstream α) : HandlerRun ListDiscussionsArgs :=
  match listDiscussionsValidate req with
  | .error e => paramErrorRun e
  | .ok args =>
      networkPhase "failed to list discussions" "failed to marshal discussions" 200
        args up marshal

/-- The validated arguments of get_discussion, which are exactly the
arguments of the single upstream call client.Discussions.GetDiscussion. -/
structure GetDiscussionArgs where
  owner : String
  repo : String
  discussionNumber : Int
deriving DecidableEq, Repr

/-- Parameter extraction of the get_discussion handler (discussions.go
lines 137-148): required owner, repo and discussion_number. -/
def getDiscussionValidate (req : Request) : Except String GetDiscussionArgs :=
  match requiredStringParam req "owner" with
  | .error e => .error e
  | .ok owner =>
  match requiredStringParam req "repo" with
  | .error e => .error e
  | .ok repo =>
  match RequiredInt req "discussion_number" with
  | .error e => .error e
  | .ok discussionNumber =>
    .ok { owner := owner, repo := repo, discussionNumber := discussionNumber }

/-- The get_discussion handler (discussions.go lines 136-174): validate,
then run the network phase expecting status 200. -/
def getDiscussionHandler {α : Type} (marshal : α → Except String String)
    (req : Request) (up : Upstream α) : HandlerRun GetDiscussionArgs :=
  match getDiscussionValidate req with
  | .error e => paramErrorRun e
  | .ok args =>
      networkPhase "failed to get discussion" "failed to marshal discussion" 200
        args up marshal

/-- The validated arguments of get_discussion_categories, which are
exactly the arguments of the single upstream call
client.Discussions.ListDiscussionCategories. -/
structure GetDiscussionCategoriesArgs where
  owner : String
  repo : String
  opts : ListOptions
deriving DecidableEq, Repr

/-- Parameter extraction of the get_discussion_categories handler
(discussions.go lines 192-208): required owner and repo, plus pagination
copied into a github.ListOptions. -/
def getDiscussionCategoriesValidate (req : Request) :
    Except String GetDiscussionCategoriesArgs :=
  match requiredStringParam req "owner" with
  | .error e => .error e
  | .ok owner =>
  match requiredStringParam req "repo" with
  | .error e => .error e
  | .ok repo =>
  match OptionalPaginationParams req with
  | .error e => .error e
  | .ok pagination =>
    .ok { owner := owner, repo := repo,
          opts := { page := pagination.page, perPage := pagination.perPage } }

/-- The get_discussion_categories handler (discussions.go lines 191-234):
validate, then run the network phase expecting status 200. -/
def getDiscussionCategoriesHandler {α : Type} (marshal : α → Except String String)
    (req : Request) (up : Upstream α) : HandlerRun GetDiscussionCategoriesArgs :=
  match getDiscussionCategoriesValidate req with
  | .error e => paramErrorRun e
  | .ok args =>
      networkPhase "failed to get discussion categories" "failed to marshal categories" 200
        args up marshal

/-- The validated arguments of get_discussion_comments, which are exactly
the arguments of the single upstream call
client.Discussions.ListDiscussionComments. -/
structure GetDiscussionCommentsArgs where
  owner : String
  repo : String
  discussionNumber : Int
  opts : DiscussionCommentListOptions
deriving DecidableEq, Repr

/-- Parameter extraction of the get_discussion_comments handler
(discussions.go lines 256-278): required owner, repo and
discussion_number, plus pagination copied into the embedded ListOptions of
a github.DiscussionCommentListOptions. -/
def getDiscussionCommentsValidate (req : Request) :
    Except String GetDiscussionCommentsArgs :=
  match requiredStringParam req "owner" with
  | .error e => .error e
  | .ok owner =>
  match requiredStringParam req "repo" with
  | .error e => .error e
  | .ok repo =>
  match RequiredInt req "discussion_number" with
  | .error e => .error e
  | .ok discussionNumber =>
  match OptionalPaginationParams req with
  | .error e => .error e
  | .ok pagination =>
    .ok { owner := owner, repo := repo, discussionNumber := discussionNumber,
          opts := { listOptions := { page := pagination.page, perPage := pagination.perPage } } }

/-- The get_discussion_comments handler (discussions.go lines 255-304):
validate, then run the network phase expecting status 200. -/
def getDiscussionCommentsHandler {α : Type} (marshal : α → Except String String)
    (req : Request) (up : Upstream α) : HandlerRun GetDiscussionCommentsArgs :=
  match getDiscussionCommentsValidate req with
  | .error e => paramErrorRun e
  | .ok args =>
      networkPhase "failed to get discussion comments" "failed to marshal comments" 200
        args up marshal

/-- The validated arguments of add_discussion_comment, which are exactly
the arguments of the single upstream call
client.Discussions.CreateDiscussionComment (the comment carries the body). -/
structure AddDiscussionCommentArgs where
  owner : String
  repo : String
  discussionNumber : Int
  comment : DiscussionComment
deriving DecidableEq, Repr

/-- Parameter extraction of the add_discussion_comment handler
(discussions.go lines 329-348): required owner, repo, discussion_number
and body; the comment object is built from the body. -/
def addDiscussionCommentValidate (req : Request) :
    Except String AddDiscussionCommentArgs :=
  match requiredStringParam req "owner" with
  | .error e => .error e
  | .ok owner =>
  match requiredStringParam req "repo" with
  | .error e => .error e
  | .ok repo =>
  match RequiredInt req "discussion_number" with
  | .error e => .error e
  | .ok discussionNumber =>
  match requiredStringParam req "body" with
  | .error e => .error e
  | .ok body =>
    .ok { owner := owner, repo := repo, discussionNumber := discussionNumber,
          comment := { body := body } }

/-- The add_discussion_comment handler (discussions.go lines 328-374):
validate, then run the network phase expecting status 201. -/
def addDiscussionCommentHandler {α : Type} (marshal : α → Except String String)
    (req : Request) (up : Upstream α) : HandlerRun AddDiscussionCommentArgs :=
  match addDiscussionCommentValidate req with
  | .error e => paramErrorRun e
  | .ok args =>
      networkPhase "failed to create discussion comment" "failed to marshal response" 201
        args up marshal

/-- The validated arguments of create_discussion, which are exactly the
arguments of the single upstream call client.Discussions.CreateDiscussion
(the discussion request carries title, body and category id). -/
structure CreateDiscussionArgs where
  owner : String
  repo : String
  discussion : DiscussionRequest
deriving DecidableEq, Repr

/-- Parameter extraction of the create_discussion handler (discussions.go
lines 403-428): required owner, repo, title, body and category_id; the
discussion request object is built from title, body and category_id. -/
def createDiscussionValidate (req : Request) :
    Except String CreateDiscussionArgs :=
  match requiredStringParam req "owner" with
  | .error e => .error e
  | .ok owner =>
  match requiredStringParam req "repo" with
  | .error e => .error e
  | .ok repo =>
  match requiredStringParam req "title" with
  | .error e => .error e
  | .ok title =>
  match requiredStringParam req "body" with
  | .error e => .error e
  | .ok body =>
  match requiredStringParam req "category_id" with
  | .error e => .error e
  | .ok categoryID =>
    .ok { owner := owner, repo := repo,
          discussion := { title := title, body := body, categoryID := categoryID } }

/-- The create_discussion handler (discussions.go lines 402-454):
validate, then run the network phase expecting status 201. -/
def createDiscussionHandler {α : Type} (marshal : α → Except String String)
    (req : Request) (up : Upstream α) : HandlerRun CreateDiscussionArgs :=
  match createDiscussionValidate req with
  | .error e => paramErrorRun e
  | .ok args =>
      networkPhase "failed to create discussion" "failed to marshal response" 201
        args up marshal

/-- One entry of a tool's declared input schema. -/
structure ToolParam where
  name : String
  typ : String
  required : Bool
deriving DecidableEq, Repr

/-- A tool declaration: its name and parameter schema. -/
structure Tool where
  name : String
  params : List ToolParam
deriving DecidableEq, Repr

/-- Modelled from the spec: the schema entries contributed by the helper
WithPagination of the github-mcp-server repository, which is not under
src/: optional number parameters page and perPage. -/
def paginationParams : List ToolParam :=
  [{ name := "page", typ := "number", required := false },
   { name := "perPage", typ := "number", required := false }]

/-- The declared schema of list_discussions (discussions.go lines 19-41). -/
def listDiscussionsTool : Tool :=
  { name := "list_discussions",
    params :=
      [{ name := "owner", typ := "string", required := true },
       { name := "repo", typ := "string", required := true },
       { name := "direction", typ := "string", required := false },
       { name := "category_id", typ := "string", required := false },
       { name := "pinned", typ := "string", required := false }] ++ paginationParams }

/-- The declared schema of get_discussion (discussions.go lines 121-135). -/
def getDiscussionTool : Tool :=
  { name := "get_discussion",
    params :=
      [{ name := "owner", typ := "string", required := true },
       { name := "repo", typ := "string", required := true },
       { name := "discussion_number", typ := "number", required := true }] }

/-- The declared schema of get_discussion_categories (discussions.go lines
179-190). -/
def getDiscussionCategoriesTool : Tool :=
  { name := "get_discussion_categories",
    params :=
      [{ name := "owner", typ := "string", required := true },
       { name := "repo", typ := "string", required := true }] ++ paginationParams }

/-- The declared schema of get_discussion_comments (discussions.go lines
239-254). -/
def getDiscussionCommentsTool : Tool :=
  { name := "get_discussion_comments",
    params :=
      [{ name := "owner", typ := "string", required := true },
       { name := "repo", typ := "string", required := true },
       { name := "discussion_number", typ := "number", required := true }] ++ paginationParams }

/-- The declared schema of add_discussion_comment (discussions.go lines
309-327). -/
def addDiscussionCommentTool : Tool :=
  { name := "add_discussion_comment",
    params :=
      [{ name := "owner", typ := "string", required := true },
       { name := "repo", typ := "string", required := true },
       { name := "discussion_number", typ := "number", required := true },
       { name := "body", typ := "string", required := true }] }

/-- The declared schema of create_discussion (discussions.go lines
379-401). -/
def createDiscussionTool : Tool :=
  { name := "create_discussion",
    params :=
      [{ name := "owner", typ := "string", required := true },
       { name := "repo", typ := "string", required := true },
       { name := "title", typ := "string", required := true },
       { name := "body", typ := "string", required := true },
       { name := "category_id", typ := "string", required := true }] }

/-- The names of a tool's required parameters, in declaration order. -/
def Tool.requiredNames (t : Tool) : List String :=
  (t.params.filter (·.required)).map (·.name)

/-- The names of a tool's optional parameters, in declaration order. -/
def Tool.optionalNames (t : Tool) : List String :=
  (t.params.filter (fun p => !p.required)).map (·.name)

/-- A required parameter of the given name and declared type is missing
from the request or present with a different primitive type.  (A present
value of the right type — even a zero value — is not covered.) -/
def badParam (req : Request) (name typ : String) : Prop :=
  match lookupArg req name with
  | none => True
  | some v => v.typeOf ≠ typ

/-- The outcome shape of a failed parameter validation: a tool-level error
result, nil Go error, the upstream client never obtained, and zero
requests issued. -/
def paramErrorOutcome {ω : Type} (run : HandlerRun ω) : Prop :=
  (∃ e, run.result = some (.errorResult e)) ∧ run.goErr = none ∧
    run.clientObtained = false ∧ run.calls = []

/-- Exactly one of the (result, error) pair is set: a non-nil tool result
with a nil Go error, or a nil tool result with a non-nil Go error. -/
def validOutcome {ω : Type} (run : HandlerRun ω) : Prop :=
  (run.result ≠ none ∧ run.goErr = none) ∨ (run.result = none ∧ run.goErr ≠ none)

theorem networkPhase_clientErr {α ω : Type} (cm mm : String) (sc : Nat) (call : ω)
    (up : Upstream α) (m : α → Except String String) (e : String)
    (hg : up.getClientErr = some e) :
    networkPhase cm mm sc call up m =
      { result := none, goErr := some ("failed to get GitHub client: " ++ e),
        clientObtained := true, calls := [] } := by
  unfold networkPhase
  rw [hg]

theorem networkPhase_transportErr {α ω : Type} (cm mm : String) (sc : Nat) (call : ω)
    (up : Upstream α) (m : α → Except String String) (e : String)
    (hg : up.getClientErr = none) (hc : up.callErr = some e) :
    networkPhase cm mm sc call up m =
      { result := none, goErr := some (cm ++ ": " ++ e),
        clientObtained := true, calls := [call] } := by
  unfold networkPhase
  rw [hg, hc]

theorem networkPhase_statusErr {α ω : Type} (cm mm : String) (sc : Nat) (call : ω)
    (up : Upstream α) (m : α → Except String String)
    (hg : up.getClientErr = none) (hc : up.callErr = none)
    (hs : up.status ≠ sc) (hb : up.bodyReadErr = none) :
    networkPhase cm mm sc call up m =
      { result := some (.errorResult (cm ++ ": " ++ up.body)), goErr := none,
        clientObtained := true, calls := [call] } := by
  unfold networkPhase
  rw [hg, hc, if_pos hs, hb]

theorem networkPhase_bodyReadErr {α ω : Type} (cm mm : String) (sc : Nat) (call : ω)
    (up : Upstream α) (m : α → Except String String) (e : String)
    (hg : up.getClientErr = none) (hc : up.callErr = none)
    (hs : up.status ≠ sc) (hb : up.bodyReadErr = some e) :
    networkPhase cm mm sc call up m =
      { result := none, goErr := some ("failed to read response body: " ++ e),
        clientObtained := true, calls := [call] } := by
  unfold networkPhase
  rw [hg, hc, if_pos hs, hb]

theorem networkPhase_success {α ω : Type} (cm mm : String) (sc : Nat) (call : ω)
    (up : Upstream α) (m : α → Except String String) (s : String)
    (hg : up.getClientErr = none) (hc : up.callErr = none)
    (hs : up.status = sc) (hm : m up.payload = .ok s) :
    networkPhase cm mm sc call up m =
      { result := some (.textResult s), goErr := none,
        clientObtained := true, calls := [call] } := by
  unfold networkPhase
  rw [hg, hc, if_neg (by simp [hs]), hm]

theorem networkPhase_marshalErr {α ω : Type} (cm mm : String) (sc : Nat) (call : ω)
    (up : Upstream α) (m : α → Except String String) (e : String)
    (hg : up.getClientErr = none) (hc : up.callErr = none)
    (hs : up.status = sc) (hm : m up.payload = .error e) :
    networkPhase cm mm sc call up m =
      { result := none, goErr := some (mm ++ ": " ++ e),
        clientObtained := true, calls := [call] } := by
  unfold networkPhase
  rw [hg, hc, if_neg (by simp [hs]), hm]

theorem networkPhase_calls {α ω : Type} (cm mm : String) (sc : Nat) (call : ω)
    (up : Upstream α) (m : α → Except String String)
    (hg : up.getClientErr = none) :
    (networkPhase cm mm sc call up m).calls = [call] := by
  unfold networkPhase
  rw [hg]
  cases hc : up.callErr
  · by_cases hs : up.status ≠ sc
    · rw [if_pos hs]
      cases up.bodyReadErr <;> rfl
    · rw [if_neg hs]
      cases m up.payload <;> rfl
  · rfl

theorem networkPhase_validOutcome {α ω : Type} (cm mm : String) (sc : Nat) (call : ω)
    (up : Upstream α) (m : α → Except String String) :
    validOutcome (networkPhase cm mm sc call up m) := by
  unfold networkPhase validOutcome
  cases up.getClientErr
  · cases up.callErr
    · by_cases hs : up.status ≠ sc
      · rw [if_pos hs]
        cases up.bodyReadErr <;> simp
      · rw [if_neg hs]
        cases m up.payload <;> simp
    · simp
  · simp

theorem requiredStringParam_of_bad (req : Request) (n : String)
    (h : badParam req n "string") : ∃ e, requiredStringParam req n = .error e := by
  unfold badParam at h
  unfold requiredStringParam
  cases hl : lookupArg req n with
  | none => exact ⟨_, rfl⟩
  | some v =>
    rw [hl] at h
    cases v with
    | str s => simp [Value.typeOf] at h
    | num n => exact ⟨_, rfl⟩
    | bool b => exact ⟨_, rfl⟩

theorem RequiredInt_of_bad (req : Request) (n : String)
    (h : badParam req n "number") : ∃ e, RequiredInt req n = .error e := by
  unfold badParam at h
  unfold RequiredInt
  cases hl : lookupArg req n with
  | none => exact ⟨_, rfl⟩
  | some v =>
    rw [hl] at h
    cases v with
    | str s => exact ⟨_, rfl⟩
    | num n => simp [Value.typeOf] at h
    | bool b => exact ⟨_, rfl⟩

theorem listDiscussionsValidate_of_bad (req : Request)
    (h : ∃ p ∈ listDiscussionsTool.params, p.required = true ∧ badParam req p.name p.typ) :
    ∃ e, listDiscussionsValidate req = .error e := by
  obtain ⟨p, hp, hreq, hbad⟩ := h
  simp [listDiscussionsTool, paginationParams] at hp
  rcases hp with rfl | rfl | rfl | rfl | rfl | rfl | rfl
  · obtain ⟨e, he⟩ := requiredStringParam_of_bad req "owner" hbad
    exact ⟨e, by unfold listDiscussionsValidate; rw [he]⟩
  · obtain ⟨e, he⟩ := requiredStringParam_of_bad req "repo" hbad
    cases h1 : requiredStringParam req "owner" with
    | error e1 => exact ⟨e1, by unfold listDiscussionsValidate; rw [h1]⟩
    | ok o => exact ⟨e, by unfold listDiscussionsValidate; rw [h1, he]⟩
  · simp at hreq
  · simp at hreq
  · simp at hreq
  · simp at hreq
  · simp at hreq

theorem getDiscussionValidate_of_bad (req : Request)
    (h : ∃ p ∈ getDiscussionTool.params, p.required = true ∧ badParam req p.name p.typ) :
    ∃ e, getDiscussionValidate req = .error e := by
  obtain ⟨p, hp, hreq, hbad⟩ := h
  simp [getDiscussionTool] at hp
  rcases hp with rfl | rfl | rfl
  · obtain ⟨e, he⟩ := requiredStringParam_of_bad req "owner" hbad
    exact ⟨e, by unfold getDiscussionValidate; rw [he]⟩
  · obtain ⟨e, he⟩ := requiredStringParam_of_bad req "repo" hbad
    cases h1 : requiredStringParam req "owner" with
    | error e1 => exact ⟨e1, by unfold getDiscussionValidate; rw [h1]⟩
    | ok o => exact ⟨e, by unfold getDiscussionValidate; rw [h1, he]⟩
  · obtain ⟨e, he⟩ := RequiredInt_of_bad req "discussion_number" hbad
    cases h1 : requiredStringParam req "owner" with
    | error e1 => exact ⟨e1, by unfold getDiscussionValidate; rw [h1]⟩
    | ok o =>
      cases h2 : requiredStringParam req "repo" with
      | error e2 => exact ⟨e2, by unfold getDiscussionValidate; rw [h1, h2]⟩
      | ok r => exact ⟨e, by unfold getDiscussionValidate; rw [h1, h2, he]⟩

theorem getDiscussionCategoriesValidate_of_bad (req : Request)
    (h : ∃ p ∈ getDiscussionCategoriesTool.params, p.required = true ∧ badParam req p.name p.typ) :
    ∃ e, getDiscussionCategoriesValidate req = .error e := by
  obtain ⟨p, hp, hreq, hbad⟩ := h
  simp [getDiscussionCategoriesTool, paginationParams] at hp
  rcases hp with rfl | rfl | rfl | rfl
  · obtain ⟨e, he⟩ := requiredStringParam_of_bad req "owner" hbad
    exact ⟨e, by unfold getDiscussionCategoriesValidate; rw [he]⟩
  · obtain ⟨e, he⟩ := requiredStringParam_of_bad req "repo" hbad
    cases h1 : requiredStringParam req "owner" with
    | error e1 => exact ⟨e1, by unfold getDiscussionCategoriesValidate; rw [h1]⟩
    | ok o => exact ⟨e, by unfold getDiscussionCategoriesValidate; rw [h1, he]⟩
  · simp at hreq
  · simp at hreq

theorem getDiscussionCommentsValidate_of_bad (req : Request)
    (h : ∃ p ∈ getDiscussionCommentsTool.params, p.required = true ∧ badParam req p.name p.typ) :
    ∃ e, getDiscussionCommentsValidate req = .error e := by
  obtain ⟨p, hp, hreq, hbad⟩ := h
  simp [getDiscussionCommentsTool, paginationParams] at hp
  rcases hp with rfl | rfl | rfl | rfl | rfl
  · obtain ⟨e, he⟩ := requiredStringParam_of_bad req "owner" hbad
    exact ⟨e, by unfold getDiscussionCommentsValidate; rw [he]⟩
  · obtain ⟨e, he⟩ := requiredStringParam_of_bad req "repo" hbad
    cases h1 : requiredStringParam req "owner" with
    | error e1 => exact ⟨e1, by unfold getDiscussionCommentsValidate; rw [h1]⟩
    | ok o => exact ⟨e, by unfold getDiscussionCommentsValidate; rw [h1, he]⟩
  · obtain ⟨e, he⟩ := RequiredInt_of_bad req "discussion_number" hbad
    cases h1 : requiredStringParam req "owner" with
    | error e1 => exact ⟨e1, by unfold getDiscussionCommentsValidate; rw [h1]⟩
    | ok o =>
      cases h2 : requiredStringParam req "repo" with
      | error e2 => exact ⟨e2, by unfold getDiscussionCommentsValidate; rw [h1, h2]⟩
      | ok r => exact ⟨e, by unfold getDiscussionCommentsValidate; rw [h1, h2, he]⟩
  · simp at hreq
  · simp at hreq

theorem addDiscussionCommentValidate_of_bad (req : Request)
    (h : ∃ p ∈ addDiscussionCommentTool.params, p.required = true ∧ badParam req p.name p.typ) :
    ∃ e, addDiscussionCommentValidate req = .error e := by
  obtain ⟨p, hp, hreq, hbad⟩ := h
  simp [addDiscussionCommentTool] at hp
  rcases hp with rfl | rfl | rfl | rfl
  · obtain ⟨e, he⟩ := requiredStringParam_of_bad req "owner" hbad
    exact ⟨e, by unfold addDiscussionCommentValidate; rw [he]⟩
  · obtain ⟨e, he⟩ := requiredStringParam_of_bad req "repo" hbad
    cases h1 : requiredStringParam req "owner" with
    | error e1 => exact ⟨e1, by unfold addDiscussionCommentValidate; rw [h1]⟩
    | ok o => exact ⟨e, by unfold addDiscussionCommentValidate; rw [h1, he]⟩
  · obtain ⟨e, he⟩ := RequiredInt_of_bad req "discussion_number" hbad
    cases h1 : requiredStringParam req "owner" with
    | error e1 => exact ⟨e1, by unfold addDiscussionCommentValidate; rw [h1]⟩
    | ok o =>
      cases h2 : requiredStringParam req "repo" with
      | error e2 => exact ⟨e2, by unfold addDiscussionCommentValidate; rw [h1, h2]⟩
      | ok r => exact ⟨e, by unfold addDiscussionCommentValidate; rw [h1, h2, he]⟩
  · obtain ⟨e, he⟩ := requiredStringParam_of_bad req "body" hbad
    cases h1 : requiredStringParam req "owner" with
    | error e1 => exact ⟨e1, by unfold addDiscussionCommentValidate; rw [h1]⟩
    | ok o =>
      cases h2 : requiredStringParam req "repo" with
      | error e2 => exact ⟨e2, by unfold addDiscussionCommentValidate; rw [h1, h2]⟩
      | ok r =>
        cases h3 : RequiredInt req "discussion_number" with
        | error e3 => exact ⟨e3, by unfold addDiscussionCommentValidate; rw [h1, h2, h3]⟩
        | ok dn => exact ⟨e, by unfold addDiscussionCommentValidate; rw [h1, h2, h3, he]⟩

theorem createDiscussionValidate_of_bad (req : Request)
    (h : ∃ p ∈ createDiscussionTool.params, p.required = true ∧ badParam req p.name p.typ) :
    ∃ e, createDiscussionValidate req = .error e := by
  obtain ⟨p, hp, hreq, hbad⟩ := h
  simp [createDiscussionTool] at hp
  rcases hp with rfl | rfl | rfl | rfl | rfl
  · obtain ⟨e, he⟩ := requiredStringParam_of_bad req "owner" hbad
    exact ⟨e, by unfold createDiscussionValidate; rw [he]⟩
  · obtain ⟨e, he⟩ := requiredStringParam_of_bad req "repo" hbad
    cases h1 : requiredStringParam req "owner" with
    | error e1 => exact ⟨e1, by unfold createDiscussionValidate; rw [h1]⟩
    | ok o => exact ⟨e, by unfold createDiscussionValidate; rw [h1, he]⟩
  · obtain ⟨e, he⟩ := requiredStringParam_of_bad req "title" hbad
    cases h1 : requiredStringParam req "owner" with
    | error e1 => exact ⟨e1, by unfold createDiscussionValidate; rw [h1]⟩
    | ok o =>
      cases h2 : requiredStringParam req "repo" with
      | error e2 => exact ⟨e2, by unfold createDiscussionValidate; rw [h1, h2]⟩
      | ok r => exact ⟨e, by unfold createDiscussionValidate; rw [h1, h2, he]⟩
  · obtain ⟨e, he⟩ := requiredStringParam_of_bad req "body" hbad
    cases h1 : requiredStringParam req "owner" with
    | error e1 => exact ⟨e1, by unfold createDiscussionValidate; rw [h1]⟩
    | ok o =>
      cases h2 : requiredStringParam req "repo" with
      | error e2 => exact ⟨e2, by unfold createDiscussionValidate; rw [h1, h2]⟩
      | ok r =>
        cases h3 : requiredStringParam req "title" with
        | error e3 => exact ⟨e3, by unfold createDiscussionValidate; rw [h1, h2, h3]⟩
        | ok ti => exact ⟨e, by unfold createDiscussionValidate; rw [h1, h2, h3, he]⟩
  · obtain ⟨e, he⟩ := requiredStringParam_of_bad req "category_id" hbad
    cases h1 : requiredStringParam req "owner" with
    | error e1 => exact ⟨e1, by unfold createDiscussionValidate; rw [h1]⟩
    | ok o =>
      cases h2 : requiredStringParam req "repo" with
      | error e2 => exact ⟨e2, by unfold createDiscussionValidate; rw [h1, h2]⟩
      | ok r =>
        cases h3 : requiredStringParam req "title" with
        | error e3 => exact ⟨e3, by unfold createDiscussionValidate; rw [h1, h2, h3]⟩
        | ok ti =>
          cases h4 : requiredStringParam req "body" with
          | error e4 => exact ⟨e4, by unfold createDiscussionValidate; rw [h1, h2, h3, h4]⟩
          | ok bo => exact ⟨e, by unfold createDiscussionValidate; rw [h1, h2, h3, h4, he]⟩

theorem paramErrorRun_outcome {ω : Type} (e : String) :
    paramErrorOutcome (paramErrorRun e : HandlerRun ω) :=
  ⟨⟨e, rfl⟩, rfl, rfl, rfl⟩

theorem listDiscussionsHandler_err {α : Type} (m : α → Except String String)
    (req : Request) (up : Upstream α) (e : String)
    (hv : listDiscussionsValidate req = .error e) :
    listDiscussionsHandler m req up = paramErrorRun e := by
  unfold listDiscussionsHandler; rw [hv]

theorem listDiscussionsHandler_ok {α : Type} (m : α → Except String String)
    (req : Request) (up : Upstream α) (args : ListDiscussionsArgs)
    (hv : listDiscussionsValidate req = .ok args) :
    listDiscussionsHandler m req up =
      networkPhase "failed to list discussions" "failed to marshal discussions" 200
        args up m := by
  unfold listDiscussionsHandler; rw [hv]

theorem getDiscussionHandler_err {α : Type} (m : α → Except String String)
    (req : Request) (up : Upstream α) (e : String)
    (hv : getDiscussionValidate req = .error e) :
    getDiscussionHandler m req up = paramErrorRun e := by
  unfold getDiscussionHandler; rw [hv]

theorem getDiscussionHandler_ok {α : Type} (m : α → Except String String)
    (req : Request) (up : Upstream α) (args : GetDiscussionArgs)
    (hv : getDiscussionValidate req = .ok args) :
    getDiscussionHandler m req up =
      networkPhase "failed to get discussion" "failed to marshal discussion" 200
        args up m := by
  unfold getDiscussionHandler; rw [hv]

theorem getDiscussionCategoriesHandler_err {α : Type} (m : α → Except String String)
    (req : Request) (up : Upstream α) (e : String)
    (hv : getDiscussionCategoriesValidate req = .error e) :
    getDiscussionCategoriesHandler m req up = paramErrorRun e := by
  unfold getDiscussionCategoriesHandler; rw [hv]

theorem getDiscussionCategoriesHandler_ok {α : Type} (m : α → Except String String)
    (req : Request) (up : Upstream α) (args : GetDiscussionCategoriesArgs)
    (hv : getDiscussionCategoriesValidate req = .ok args) :
    getDiscussionCategoriesHandler m req up =
      networkPhase "failed to get discussion categories" "failed to marshal categories" 200
        args up m := by
  unfold getDiscussionCategoriesHandler; rw [hv]

theorem getDiscussionCommentsHandler_err {α : Type} (m : α → Except String String)
    (req : Request) (up : Upstream α) (e : String)
    (hv : getDiscussionCommentsValidate req = .error e) :
    getDiscussionCommentsHandler m req up = paramErrorRun e := by
  unfold getDiscussionCommentsHandler; rw [hv]

theorem getDiscussionCommentsHandler_ok {α : Type} (m : α → Except String String)
    (req : Request) (up : Upstream α) (args : GetDiscussionCommentsArgs)
    (hv : getDiscussionCommentsValidate req = .ok args) :
    getDiscussionCommentsHandler m req up =
      networkPhase "failed to get discussion comments" "failed to marshal comments" 200
        args up m := by
  unfold getDiscussionCommentsHandler; rw [hv]

theorem addDiscussionCommentHandler_err {α : Type} (m : α → Except String String)
    (req : Request) (up : Upstream α) (e : String)
    (hv : addDiscussionCommentValidate req = .error e) :
    addDiscussionCommentHandler m req up = paramErrorRun e := by
  unfold addDiscussionCommentHandler; rw [hv]

theorem addDiscussionCommentHandler_ok {α : Type} (m : α → Except String String)
    (req : Request) (up : Upstream α) (args : AddDiscussionCommentArgs)
    (hv : addDiscussionCommentValidate req = .ok args) :
    addDiscussionCommentHandler m req up =
      networkPhase "failed to create discussion comment" "failed to marshal response" 201
        args up m := by
  unfold addDiscussionCommentHandler; rw [hv]

theorem createDiscussionHandler_err {α : Type} (m : α → Except String String)
    (req : Request) (up : Upstream α) (e : String)
    (hv : createDiscussionValidate req = .error e) :
    createDiscussionHandler m req up = paramErrorRun e := by
  unfold createDiscussionHandler; rw [hv]

theorem createDiscussionHandler_ok {α : Type} (m : α → Except String String)
    (req : Request) (up : Upstream α) (args : CreateDiscussionArgs)
    (hv : createDiscussionValidate req = .ok args) :
    createDiscussionHandler m req up =
      networkPhase "failed to create discussion" "failed to marshal response" 201
        args up m := by
  unfold createDiscussionHandler; rw [hv]

/-- C1: for every one of the six operations, a request in which some
required parameter (per the tool's declared schema) is missing or not
of its declared primitive type makes the handler return a tool-level
parameter error with a nil Go error, never obtain the upstream client,
and issue zero network calls. -/
theorem c1_required_param_error_zero_network :
    (∀ (α : Type) (m : α → Except String String) (req : Request) (up : Upstream α),
      (∃ p ∈ listDiscussionsTool.params, p.required = true ∧ badParam req p.name p.typ) →
      paramErrorOutcome (listDiscussionsHandler m req up)) ∧
    (∀ (α : Type) (m : α → Except String String) (req : Request) (up : Upstream α),
      (∃ p ∈ getDiscussionTool.params, p.required = true ∧ badParam req p.name p.typ) →
      paramErrorOutcome (getDiscussionHandler m req up)) ∧
    (∀ (α : Type) (m : α → Except String String) (req : Request) (up : Upstream α),
      (∃ p ∈ getDiscussionCategoriesTool.params, p.required = true ∧ badParam req p.name p.typ) →
      paramErrorOutcome (getDiscussionCategoriesHandler m req up)) ∧
    (∀ (α : Type) (m : α → Except String String) (req : Request) (up : Upstream α),
      (∃ p ∈ getDiscussionCommentsTool.params, p.required = true ∧ badParam req p.name p.typ) →
      paramErrorOutcome (getDiscussionCommentsHandler m req up)) ∧
    (∀ (α : Type) (m : α → Except String String) (req : Request) (up : Upstream α),
      (∃ p ∈ addDiscussionCommentTool.params, p.required = true ∧ badParam req p.name p.typ) →
      paramErrorOutcome (addDiscussionCommentHandler m req up)) ∧
    (∀ (α : Type) (m : α → Except String String) (req : Request) (up : Upstream α),
      (∃ p ∈ createDiscussionTool.params, p.required = true ∧ badParam req p.name p.typ) →
      paramErrorOutcome (createDiscussionHandler m req up)) := by
  refine ⟨?_, ?_, ?_, ?_, ?_, ?_⟩
  · intro α m req up h
    obtain ⟨e, he⟩ := listDiscussionsValidate_of_bad req h
    rw [listDiscussionsHandler_err m req up e he]
    exact paramErrorRun_outcome e
  · intro α m req up h
    obtain ⟨e, he⟩ := getDiscussionValidate_of_bad req h
    rw [getDiscussionHandler_err m req up e he]
    exact paramErrorRun_outcome e
  · intro α m req up h
    obtain ⟨e, he⟩ := getDiscussionCategoriesValidate_of_bad req h
    rw [getDiscussionCategoriesHandler_err m req up e he]
    exact paramErrorRun_outcome e
  · intro α m req up h
    obtain ⟨e, he⟩ := getDiscussionCommentsValidate_of_bad req h
    rw [getDiscussionCommentsHandler_err m req up e he]
    exact paramErrorRun_outcome e
  · intro α m req up h
    obtain ⟨e, he⟩ := addDiscussionCommentValidate_of_bad req h
    rw [addDiscussionCommentHandler_err m req up e he]
    exact paramErrorRun_outcome e
  · intro α m req up h
    obtain ⟨e, he⟩ := createDiscussionValidate_of_bad req h
    rw [createDiscussionHandler_err m req up e he]
    exact paramErrorRun_outcome e

/-- A concrete upstream environment over the Unit payload type, used to
evaluate the handlers at concrete inputs. -/
def upU : Upstream Unit :=
  { getClientErr := none, callErr := none, status := 200, bodyReadErr := none,
    body := "", payload := () }

/-- A concrete marshaller over the Unit payload type. -/
def mU : Unit → Except String String := fun _ => .ok "null"

/-- C1 witness: the empty request (owner missing) drives each of the six
handlers to a parameter error with zero network activity. -/
theorem c1_witness :
    paramErrorOutcome (listDiscussionsHandler mU [] upU) ∧
    paramErrorOutcome (getDiscussionHandler mU [] upU) ∧
    paramErrorOutcome (getDiscussionCategoriesHandler mU [] upU) ∧
    paramErrorOutcome (getDiscussionCommentsHandler mU [] upU) ∧
    paramErrorOutcome (addDiscussionCommentHandler mU [] upU) ∧
    paramErrorOutcome (createDiscussionHandler mU [] upU) :=
  ⟨c1_required_param_error_zero_network.1 Unit mU [] upU
      ⟨{ name := "owner", typ := "string", required := true },
        by simp [listDiscussionsTool, paginationParams], rfl, by simp [badParam, lookupArg]⟩,
   c1_required_param_error_zero_network.2.1 Unit mU [] upU
      ⟨{ name := "owner", typ := "string", required := true },
        by simp [getDiscussionTool], rfl, by simp [badParam, lookupArg]⟩,
   c1_required_param_error_zero_network.2.2.1 Unit mU [] upU
      ⟨{ name := "owner", typ := "string", required := true },
        by simp [getDiscussionCategoriesTool, paginationParams], rfl,
        by simp [badParam, lookupArg]⟩,
   c1_required_param_error_zero_network.2.2.2.1 Unit mU [] upU
      ⟨{ name := "owner", typ := "string", required := true },
        by simp [getDiscussionCommentsTool, paginationParams], rfl,
        by simp [badParam, lookupArg]⟩,
   c1_required_param_error_zero_network.2.2.2.2.1 Unit mU [] upU
      ⟨{ name := "owner", typ := "string", required := true },
        by simp [addDiscussionCommentTool], rfl, by simp [badParam, lookupArg]⟩,
   c1_required_param_error_zero_network.2.2.2.2.2 Unit mU [] upU
      ⟨{ name := "owner", typ := "string", required := true },
        by simp [createDiscussionTool], rfl, by simp [badParam, lookupArg]⟩⟩

/-- C2: for every operation, when the upstream call succeeds at the
transport level but the HTTP status differs from the documented success
code (200 for the four reads, 201 for add_discussion_comment and
create_discussion), the handler returns a textual tool error whose text is
the raw response body prefixed by the operation-specific message; when the
status equals the success code, no such error result is produced. -/
theorem c2_status_policy :
    (∀ (α : Type) (m : α → Except String String) (req : Request) (up : Upstream α)
      (args : ListDiscussionsArgs),
      listDiscussionsValidate req = .ok args →
      up.getClientErr = none → up.callErr = none →
      (up.status ≠ 200 → up.bodyReadErr = none →
        (listDiscussionsHandler m req up).result =
          some (.errorResult ("failed to list discussions" ++ ": " ++ up.body)) ∧
        (listDiscussionsHandler m req up).goErr = none) ∧
      (up.status = 200 →
        ∀ s, (listDiscussionsHandler m req up).result ≠ some (.errorResult s))) ∧
    (∀ (α : Type) (m : α → Except String String) (req : Request) (up : Upstream α)
      (args : GetDiscussionArgs),
      getDiscussionValidate req = .ok args →
      up.getClientErr = none → up.callErr = none →
      (up.status ≠ 200 → up.bodyReadErr = none →
        (getDiscussionHandler m req up).result =
          some (.errorResult ("failed to get discussion" ++ ": " ++ up.body)) ∧
        (getDiscussionHandler m req up).goErr = none) ∧
      (up.status = 200 →
        ∀ s, (getDiscussionHandler m req up).result ≠ some (.errorResult s))) ∧
    (∀ (α : Type) (m : α → Except String String) (req : Request) (up : Upstream α)
      (args : GetDiscussionCategoriesArgs),
      getDiscussionCategoriesValidate req = .ok args →
      up.getClientErr = none → up.callErr = none →
      (up.status ≠ 200 → up.bodyReadErr = none →
        (getDiscussionCategoriesHandler m req up).result =
          some (.errorResult ("failed to get discussion categories" ++ ": " ++ up.body)) ∧
        (getDiscussionCategoriesHandler m req up).goErr = none) ∧
      (up.status = 200 →
        ∀ s, (getDiscussionCategoriesHandler m req up).result ≠ some (.errorResult s))) ∧
    (∀ (α : Type) (m : α → Except String String) (req : Request) (up : Upstream α)
      (args : GetDiscussionCommentsArgs),
      getDiscussionCommentsValidate req = .ok args →
      up.getClientErr = none → up.callErr = none →
      (up.status ≠ 200 → up.bodyReadErr = none →
        (getDiscussionCommentsHandler m req up).result =
          some (.errorResult ("failed to get discussion comments" ++ ": " ++ up.body)) ∧
        (getDiscussionCommentsHandler m req up).goErr = none) ∧
      (up.status = 200 →
        ∀ s, (getDiscussionCommentsHandler m req up).result ≠ some (.errorResult s))) ∧
    (∀ (α : Type) (m : α → Except String String) (req : Request) (up : Upstream α)
      (args : AddDiscussionCommentArgs),
      addDiscussionCommentValidate req = .ok args →
      up.getClientErr = none → up.callErr = none →
      (up.status ≠ 201 → up.bodyReadErr = none →
        (addDiscussionCommentHandler m req up).result =
          some (.errorResult ("failed to create discussion comment" ++ ": " ++ up.body)) ∧
        (addDiscussionCommentHandler m req up).goErr = none) ∧
      (up.status = 201 →
        ∀ s, (addDiscussionCommentHandler m req up).result ≠ some (.errorResult s))) ∧
    (∀ (α : Type) (m : α → Except String String) (req : Request) (up : Upstream α)
      (args : CreateDiscussionArgs),
      createDiscussionValidate req = .ok args →
      up.getClientErr = none → up.callErr = none →
      (up.status ≠ 201 → up.bodyReadErr = none →
        (createDiscussionHandler m req up).result =
          some (.errorResult ("failed to create discussion" ++ ": " ++ up.body)) ∧
        (createDiscussionHandler m req up).goErr = none) ∧
      (up.status = 201 →
        ∀ s, (createDiscussionHandler m req up).result ≠ some (.errorResult s))) := by
  refine ⟨?_, ?_, ?_, ?_, ?_, ?_⟩ <;>
  · intro α m req up args hv hg hc
    constructor
    · intro hs hb
      first
      | rw [listDiscussionsHandler_ok m req up args hv,
            networkPhase_statusErr _ _ _ _ _ _ hg hc hs hb]
      | rw [getDiscussionHandler_ok m req up args hv,
            networkPhase_statusErr _ _ _ _ _ _ hg hc hs hb]
      | rw [getDiscussionCategoriesHandler_ok m req up args hv,
            networkPhase_statusErr _ _ _ _ _ _ hg hc hs hb]
      | rw [getDiscussionCommentsHandler_ok m req up args hv,
            networkPhase_statusErr _ _ _ _ _ _ hg hc hs hb]
      | rw [addDiscussionCommentHandler_ok m req up args hv,
            networkPhase_statusErr _ _ _ _ _ _ hg hc hs hb]
      | rw [createDiscussionHandler_ok m req up args hv,
            networkPhase_statusErr _ _ _ _ _ _ hg hc hs hb]
      exact ⟨rfl, rfl⟩
    · intro hs s
      first
      | rw [listDiscussionsHandler_ok m req up args hv]
      | rw [getDiscussionHandler_ok m req up args hv]
      | rw [getDiscussionCategoriesHandler_ok m req up args hv]
      | rw [getDiscussionCommentsHandler_ok m req up args hv]
      | rw [addDiscussionCommentHandler_ok m req up args hv]
      | rw [createDiscussionHandler_ok m req up args hv]
      cases hm : m up.payload with
      | error e => rw [networkPhase_marshalErr _ _ _ _ _ _ _ hg hc hs hm]; simp
      | ok t => rw [networkPhase_success _ _ _ _ _ _ _ hg hc hs hm]; simp

/-- A concrete minimal valid request for the operations requiring only
owner and repo. -/
def reqListMin : Request := [("owner", .str "o"), ("repo", .str "r")]

/-- A concrete minimal valid request for the operations additionally
requiring discussion_number. -/
def reqGetMin : Request :=
  [("owner", .str "o"), ("repo", .str "r"), ("discussion_number", .num 7)]

/-- A concrete valid request for add_discussion_comment. -/
def reqAddMin : Request :=
  [("owner", .str "o"), ("repo", .str "r"), ("discussion_number", .num 7),
   ("body", .str "hi")]

/-- A concrete valid request for create_discussion. -/
def reqCreateMin : Request :=
  [("owner", .str "o"), ("repo", .str "r"), ("title", .str "t"),
   ("body", .str "b"), ("category_id", .str "1")]

/-- The validated arguments of reqListMin for list_discussions. -/
def argsListMin : ListDiscussionsArgs :=
  { owner := "o", repo := "r",
    opts := { direction := "", categoryID := "", pinned := none,
              listOptions := { page := 0, perPage := 0 } } }

/-- The validated arguments of reqGetMin for get_discussion. -/
def argsGetMin : GetDiscussionArgs := { owner := "o", repo := "r", discussionNumber := 7 }

/-- The validated arguments of reqListMin for get_discussion_categories. -/
def argsCategoriesMin : GetDiscussionCategoriesArgs :=
  { owner := "o", repo := "r", opts := { page := 0, perPage := 0 } }

/-- The validated arguments of reqGetMin for get_discussion_comments. -/
def argsCommentsMin : GetDiscussionCommentsArgs :=
  { owner := "o", repo := "r", discussionNumber := 7,
    opts := { listOptions := { page := 0, perPage := 0 } } }

/-- The validated arguments of reqAddMin for add_discussion_comment. -/
def argsAddMin : AddDiscussionCommentArgs :=
  { owner := "o", repo := "r", discussionNumber := 7, comment := { body := "hi" } }

/-- The validated arguments of reqCreateMin for create_discussion. -/
def argsCreateMin : CreateDiscussionArgs :=
  { owner := "o", repo := "r",
    discussion := { title := "t", body := "b", categoryID := "1" } }

/-- A concrete upstream environment answering status 404 with body nf. -/
def up404 : Upstream Unit :=
  { getClientErr := none, callErr := none, status := 404, bodyReadErr := none,
    body := "nf", payload := () }

/-- C2 witness: each of the six handlers, fed a valid request and a 404
response with body nf, returns the operation-specific textual error. -/
theorem c2_witness :
    (listDiscussionsHandler mU reqListMin up404).result =
      some (.errorResult ("failed to list discussions" ++ ": " ++ "nf")) ∧
    (getDiscussionHandler mU reqGetMin up404).result =
      some (.errorResult ("failed to get discussion" ++ ": " ++ "nf")) ∧
    (getDiscussionCategoriesHandler mU reqListMin up404).result =
      some (.errorResult ("failed to get discussion categories" ++ ": " ++ "nf")) ∧
    (getDiscussionCommentsHandler mU reqGetMin up404).result =
      some (.errorResult ("failed to get discussion comments" ++ ": " ++ "nf")) ∧
    (addDiscussionCommentHandler mU reqAddMin up404).result =
      some (.errorResult ("failed to create discussion comment" ++ ": " ++ "nf")) ∧
    (createDiscussionHandler mU reqCreateMin up404).result =
      some (.errorResult ("failed to create discussion" ++ ": " ++ "nf")) :=
  ⟨((c2_status_policy.1 Unit mU reqListMin up404 argsListMin rfl rfl rfl).1
      (by decide) rfl).1,
   ((c2_status_policy.2.1 Unit mU reqGetMin up404 argsGetMin rfl rfl rfl).1
      (by decide) rfl).1,
   ((c2_status_policy.2.2.1 Unit mU reqListMin up404 argsCategoriesMin rfl rfl rfl).1
      (by decide) rfl).1,
   ((c2_status_policy.2.2.2.1 Unit mU reqGetMin up404 argsCommentsMin rfl rfl rfl).1
      (by decide) rfl).1,
   ((c2_status_policy.2.2.2.2.1 Unit mU reqAddMin up404 argsAddMin rfl rfl rfl).1
      (by decide) rfl).1,
   ((c2_status_policy.2.2.2.2.2 Unit mU reqCreateMin up404 argsCreateMin rfl rfl rfl).1
      (by decide) rfl).1⟩

/-- C3: for every operation, on a success-status response the returned
text payload is exactly the serialization of the object the upstream
client returned — the handler passes the upstream object unchanged to the
serializer and returns its output verbatim — so any deserializer that
inverts the serializer recovers an object structurally equal to the
upstream one. -/
theorem c3_success_payload_verbatim :
    (∀ (α : Type) (m : α → Except String String) (req : Request) (up : Upstream α)
      (args : ListDiscussionsArgs) (s : String),
      listDiscussionsValidate req = .ok args →
      up.getClientErr = none → up.callErr = none → up.status = 200 →
      m up.payload = .ok s →
      (listDiscussionsHandler m req up).result = some (.textResult s) ∧
      ∀ (unm : String → Option α),
        (∀ x t, m x = .ok t → unm t = some x) → unm s = some up.payload) ∧
    (∀ (α : Type) (m : α → Except String String) (req : Request) (up : Upstream α)
      (args : GetDiscussionArgs) (s : String),
      getDiscussionValidate req = .ok args →
      up.getClientErr = none → up.callErr = none → up.status = 200 →
      m up.payload = .ok s →
      (getDiscussionHandler m req up).result = some (.textResult s) ∧
      ∀ (unm : String → Option α),
        (∀ x t, m x = .ok t → unm t = some x) → unm s = some up.payload) ∧
    (∀ (α : Type) (m : α → Except String String) (req : Request) (up : Upstream α)
      (args : GetDiscussionCategoriesArgs) (s : String),
      getDiscussionCategoriesValidate req = .ok args →
      up.getClientErr = none → up.callErr = none → up.status = 200 →
      m up.payload = .ok s →
      (getDiscussionCategoriesHandler m req up).result = some (.textResult s) ∧
      ∀ (unm : String → Option α),
        (∀ x t, m x = .ok t → unm t = some x) → unm s = some up.payload) ∧
    (∀ (α : Type) (m : α → Except String String) (req : Request) (up : Upstream α)
      (args : GetDiscussionCommentsArgs) (s : String),
      getDiscussionCommentsValidate req = .ok args →
      up.getClientErr = none → up.callErr = none → up.status = 200 →
      m up.payload = .ok s →
      (getDiscussionCommentsHandler m req up).result = some (.textResult s) ∧
      ∀ (unm : String → Option α),
        (∀ x t, m x = .ok t → unm t = some x) → unm s = some up.payload) ∧
    (∀ (α : Type) (m : α → Except String String) (req : Request) (up : Upstream α)
      (args : AddDiscussionCommentArgs) (s : String),
      addDiscussionCommentValidate req = .ok args →
      up.getClientErr = none → up.callErr = none → up.status = 201 →
      m up.payload = .ok s →
      (addDiscussionCommentHandler m req up).result = some (.textResult s) ∧
      ∀ (unm : String → Option α),
        (∀ x t, m x = .ok t → unm t = some x) → unm s = some up.payload) ∧
    (∀ (α : Type) (m : α → Except String String) (req : Request) (up : Upstream α)
      (args : CreateDiscussionArgs) (s : String),
      createDiscussionValidate req = .ok args →
      up.getClientErr = none → up.callErr = none → up.status = 201 →
      m up.payload = .ok s →
      (createDiscussionHandler m req up).result = some (.textResult s) ∧
      ∀ (unm : String → Option α),
        (∀ x t, m x = .ok t → unm t = some x) → unm s = some up.payload) := by
  refine ⟨?_, ?_, ?_, ?_, ?_, ?_⟩ <;>
  · intro α m req up args s hv hg hc hs hm
    refine ⟨?_, fun unm hrt => hrt up.payload s hm⟩
    first
    | rw [listDiscussionsHandler_ok m req up args hv,
          networkPhase_success _ _ _ _ _ _ _ hg hc hs hm]
    | rw [getDiscussionHandler_ok m req up args hv,
          networkPhase_success _ _ _ _ _ _ _ hg hc hs hm]
    | rw [getDiscussionCategoriesHandler_ok m req up args hv,
          networkPhase_success _ _ _ _ _ _ _ hg hc hs hm]
    | rw [getDiscussionCommentsHandler_ok m req up args hv,
          networkPhase_success _ _ _ _ _ _ _ hg hc hs hm]
    | rw [addDiscussionCommentHandler_ok m req up args hv,
          networkPhase_success _ _ _ _ _ _ _ hg hc hs hm]
    | rw [createDiscussionHandler_ok m req up args hv,
          networkPhase_success _ _ _ _ _ _ _ hg hc hs hm]

/-- A concrete upstream environment answering status 201 over the Unit
payload type. -/
def up201 : Upstream Unit :=
  { getClientErr := none, callErr := none, status := 201, bodyReadErr := none,
    body := "", payload := () }

/-- C3 witness: each of the six handlers, fed a valid request and a
success-status response, returns exactly the serialized payload. -/
theorem c3_witness :
    (listDiscussionsHandler mU reqListMin upU).result = some (.textResult "null") ∧
    (getDiscussionHandler mU reqGetMin upU).result = some (.textResult "null") ∧
    (getDiscussionCategoriesHandler mU reqListMin upU).result = some (.textResult "null") ∧
    (getDiscussionCommentsHandler mU reqGetMin upU).result = some (.textResult "null") ∧
    (addDiscussionCommentHandler mU reqAddMin up201).result = some (.textResult "null") ∧
    (createDiscussionHandler mU reqCreateMin up201).result = some (.textResult "null") :=
  ⟨(c3_success_payload_verbatim.1 Unit mU reqListMin upU argsListMin "null"
      rfl rfl rfl rfl rfl).1,
   (c3_success_payload_verbatim.2.1 Unit mU reqGetMin upU argsGetMin "null"
      rfl rfl rfl rfl rfl).1,
   (c3_success_payload_verbatim.2.2.1 Unit mU reqListMin upU argsCategoriesMin "null"
      rfl rfl rfl rfl rfl).1,
   (c3_success_payload_verbatim.2.2.2.1 Unit mU reqGetMin upU argsCommentsMin "null"
      rfl rfl rfl rfl rfl).1,
   (c3_success_payload_verbatim.2.2.2.2.1 Unit mU reqAddMin up201 argsAddMin "null"
      rfl rfl rfl rfl rfl).1,
   (c3_success_payload_verbatim.2.2.2.2.2 Unit mU reqCreateMin up201 argsCreateMin "null"
      rfl rfl rfl rfl rfl).1⟩

/-- C4: for every operation, a transport-level failure of the upstream
call (the client call returns a non-nil error) is reported as a hard
error: a nil tool result together with a non-nil wrapped Go error, not a
tool-level textual error result. -/
theorem c4_transport_failure_hard_error :
    (∀ (α : Type) (m : α → Except String String) (req : Request) (up : Upstream α)
      (args : ListDiscussionsArgs) (e : String),
      listDiscussionsValidate req = .ok args →
      up.getClientErr = none → up.callErr = some e →
      (listDiscussionsHandler m req up).result = none ∧
      (listDiscussionsHandler m req up).goErr =
        some ("failed to list discussions" ++ ": " ++ e)) ∧
    (∀ (α : Type) (m : α → Except String String) (req : Request) (up : Upstream α)
      (args : GetDiscussionArgs) (e : String),
      getDiscussionValidate req = .ok args →
      up.getClientErr = none → up.callErr = some e →
      (getDiscussionHandler m req up).result = none ∧
      (getDiscussionHandler m req up).goErr =
        some ("failed to get discussion" ++ ": " ++ e)) ∧
    (∀ (α : Type) (m : α → Except String String) (req : Request) (up : Upstream α)
      (args : GetDiscussionCategoriesArgs) (e : String),
      getDiscussionCategoriesValidate req = .ok args →
      up.getClientErr = none → up.callErr = some e →
      (getDiscussionCategoriesHandler m req up).result = none ∧
      (getDiscussionCategoriesHandler m req up).goErr =
        some ("failed to get discussion categories" ++ ": " ++ e)) ∧
    (∀ (α : Type) (m : α → Except String String) (req : Request) (up : Upstream α)
      (args : GetDiscussionCommentsArgs) (e : String),
      getDiscussionCommentsValidate req = .ok args →
      up.getClientErr = none → up.callErr = some e →
      (getDiscussionCommentsHandler m req up).result = none ∧
      (getDiscussionCommentsHandler m req up).goErr =
        some ("failed to get discussion comments" ++ ": " ++ e)) ∧
    (∀ (α : Type) (m : α → Except String String) (req : Request) (up : Upstream α)
      (args : AddDiscussionCommentArgs) (e : String),
      addDiscussionCommentValidate req = .ok args →
      up.getClientErr = none → up.callErr = some e →
      (addDiscussionCommentHandler m req up).result = none ∧
      (addDiscussionCommentHandler m req up).goErr =
        some ("failed to create discussion comment" ++ ": " ++ e)) ∧
    (∀ (α : Type) (m : α → Except String String) (req : Request) (up : Upstream α)
      (args : CreateDiscussionArgs) (e : String),
      createDiscussionValidate req = .ok args →
      up.getClientErr = none → up.callErr = some e →
      (createDiscussionHandler m req up).result = none ∧
      (createDiscussionHandler m req up).goErr =
        some ("failed to create discussion" ++ ": " ++ e)) := by
  refine ⟨?_, ?_, ?_, ?_, ?_, ?_⟩ <;>
  · intro α m req up args e hv hg hc
    first
    | rw [listDiscussionsHandler_ok m req up args hv,
          networkPhase_transportErr _ _ _ _ _ _ _ hg hc]
    | rw [getDiscussionHandler_ok m req up args hv,
          networkPhase_transportErr _ _ _ _ _ _ _ hg hc]
    | rw [getDiscussionCategoriesHandler_ok m req up args hv,
          networkPhase_transportErr _ _ _ _ _ _ _ hg hc]
    | rw [getDiscussionCommentsHandler_ok m req up args hv,
          networkPhase_transportErr _ _ _ _ _ _ _ hg hc]
    | rw [addDiscussionCommentHandler_ok m req up args hv,
          networkPhase_transportErr _ _ _ _ _ _ _ hg hc]
    | rw [createDiscussionHandler_ok m req up args hv,
          networkPhase_transportErr _ _ _ _ _ _ _ hg hc]
    exact ⟨rfl, rfl⟩

/-- A concrete upstream environment whose single call fails at the
transport level. -/
def upTr : Upstream Unit :=
  { getClientErr := none, callErr := some "connection reset", status := 0,
    bodyReadErr := none, body := "", payload := () }

/-- C4 witness: each of the six handlers, fed a valid request and a
transport failure, returns a nil result and the wrapped hard error. -/
theorem c4_witness :
    (listDiscussionsHandler mU reqListMin upTr).result = none ∧
    (getDiscussionHandler mU reqGetMin upTr).result = none ∧
    (getDiscussionCategoriesHandler mU reqListMin upTr).goErr =
      some ("failed to get discussion categories" ++ ": " ++ "connection reset") ∧
    (getDiscussionCommentsHandler mU reqGetMin upTr).result = none ∧
    (addDiscussionCommentHandler mU reqAddMin upTr).goErr =
      some ("failed to create discussion comment" ++ ": " ++ "connection reset") ∧
    (createDiscussionHandler mU reqCreateMin upTr).result = none :=
  ⟨(c4_transport_failure_hard_error.1 Unit mU reqListMin upTr argsListMin
      "connection reset" rfl rfl rfl).1,
   (c4_transport_failure_hard_error.2.1 Unit mU reqGetMin upTr argsGetMin
      "connection reset" rfl rfl rfl).1,
   (c4_transport_failure_hard_error.2.2.1 Unit mU reqListMin upTr argsCategoriesMin
      "connection reset" rfl rfl rfl).2,
   (c4_transport_failure_hard_error.2.2.2.1 Unit mU reqGetMin upTr argsCommentsMin
      "connection reset" rfl rfl rfl).1,
   (c4_transport_failure_hard_error.2.2.2.2.1 Unit mU reqAddMin upTr argsAddMin
      "connection reset" rfl rfl rfl).2,
   (c4_transport_failure_hard_error.2.2.2.2.2 Unit mU reqCreateMin upTr argsCreateMin
      "connection reset" rfl rfl rfl).1⟩

/-- C5: calling add_discussion_comment with the required string parameter
body present but equal to the empty string fails parameter validation —
the handler returns a tool-level parameter error, never obtains the
upstream client, and sends no network request. -/
theorem c5_empty_body_param_error :
    ∀ (α : Type) (m : α → Except String String) (req : Request) (up : Upstream α),
      lookupArg req "body" = some (.str "") →
      paramErrorOutcome (addDiscussionCommentHandler m req up) := by
  intro α m req up hb
  have hv : ∃ e, addDiscussionCommentValidate req = .error e := by
    cases h1 : requiredStringParam req "owner" with
    | error e1 => exact ⟨e1, by unfold addDiscussionCommentValidate; rw [h1]⟩
    | ok o =>
      cases h2 : requiredStringParam req "repo" with
      | error e2 => exact ⟨e2, by unfold addDiscussionCommentValidate; rw [h1, h2]⟩
      | ok r =>
        cases h3 : RequiredInt req "discussion_number" with
        | error e3 => exact ⟨e3, by unfold addDiscussionCommentValidate; rw [h1, h2, h3]⟩
        | ok dn =>
          have hbody : requiredStringParam req "body" =
              .error ("missing required parameter: " ++ "body") := by
            unfold requiredStringParam
            rw [hb]
            simp
          exact ⟨_, by unfold addDiscussionCommentValidate; rw [h1, h2, h3, hbody]⟩
  obtain ⟨e, he⟩ := hv
  rw [addDiscussionCommentHandler_err m req up e he]
  exact paramErrorRun_outcome e

/-- A concrete add_discussion_comment request whose body is the empty
string and whose other parameters are valid. -/
def reqAddEmptyBody : Request :=
  [("owner", .str "o"), ("repo", .str "r"), ("discussion_number", .num 7),
   ("body", .str "")]

/-- C5 witness: the concrete empty-body request yields a parameter error
and zero network activity. -/
theorem c5_witness : paramErrorOutcome (addDiscussionCommentHandler mU reqAddEmptyBody upU) :=
  c5_empty_body_param_error Unit mU reqAddEmptyBody upU rfl

/-- C8: each tool's declared input schema marks as required exactly the
parameters of the tool-surface table; in particular get_discussion
requires owner, repo and discussion_number with no optional parameters,
and create_discussion requires owner, repo, title, body and category_id
with no optional parameters. -/
theorem c8_schema_required_params :
    listDiscussionsTool.requiredNames = ["owner", "repo"] ∧
    listDiscussionsTool.optionalNames =
      ["direction", "category_id", "pinned", "page", "perPage"] ∧
    getDiscussionTool.requiredNames = ["owner", "repo", "discussion_number"] ∧
    getDiscussionTool.optionalNames = [] ∧
    getDiscussionCategoriesTool.requiredNames = ["owner", "repo"] ∧
    getDiscussionCategoriesTool.optionalNames = ["page", "perPage"] ∧
    getDiscussionCommentsTool.requiredNames = ["owner", "repo", "discussion_number"] ∧
    getDiscussionCommentsTool.optionalNames = ["page", "perPage"] ∧
    addDiscussionCommentTool.requiredNames =
      ["owner", "repo", "discussion_number", "body"] ∧
    createDiscussionTool.requiredNames =
      ["owner", "repo", "title", "body", "category_id"] ∧
    createDiscussionTool.optionalNames = [] :=
  ⟨rfl, rfl, rfl, rfl, rfl, rfl, rfl, rfl, rfl, rfl, rfl⟩

/-- C9: for every operation, every request and every upstream behaviour,
the handler returns exactly one of a non-nil tool result with a nil Go
error, or a nil tool result with a non-nil Go error — never both nil and
never both non-nil. -/
theorem c9_result_error_exclusive :
    (∀ (α : Type) (m : α → Except String String) (req : Request) (up : Upstream α),
      validOutcome (listDiscussionsHandler m req up)) ∧
    (∀ (α : Type) (m : α → Except String String) (req : Request) (up : Upstream α),
      validOutcome (getDiscussionHandler m req up)) ∧
    (∀ (α : Type) (m : α → Except String String) (req : Request) (up : Upstream α),
      validOutcome (getDiscussionCategoriesHandler m req up)) ∧
    (∀ (α : Type) (m : α → Except String String) (req : Request) (up : Upstream α),
      validOutcome (getDiscussionCommentsHandler m req up)) ∧
    (∀ (α : Type) (m : α → Except String String) (req : Request) (up : Upstream α),
      validOutcome (addDiscussionCommentHandler m req up)) ∧
    (∀ (α : Type) (m : α → Except String String) (req : Request) (up : Upstream α),
      validOutcome (createDiscussionHandler m req up)) := by
  refine ⟨?_, ?_, ?_, ?_, ?_, ?_⟩
  · intro α m req up
    cases hv : listDiscussionsValidate req with
    | error e =>
      rw [listDiscussionsHandler_err m req up e hv]
      exact Or.inl ⟨by simp [paramErrorRun], rfl⟩
    | ok args =>
      rw [listDiscussionsHandler_ok m req up args hv]
      exact networkPhase_validOutcome _ _ _ _ _ _
  · intro α m req up
    cases hv : getDiscussionValidate req with
    | error e =>
      rw [getDiscussionHandler_err m req up e hv]
      exact Or.inl ⟨by simp [paramErrorRun], rfl⟩
    | ok args =>
      rw [getDiscussionHandler_ok m req up args hv]
      exact networkPhase_validOutcome _ _ _ _ _ _
  · intro α m req up
    cases hv : getDiscussionCategoriesValidate req with
    | error e =>
      rw [getDiscussionCategoriesHandler_err m req up e hv]
      exact Or.inl ⟨by simp [paramErrorRun], rfl⟩
    | ok args =>
      rw [getDiscussionCategoriesHandler_ok m req up args hv]
      exact networkPhase_validOutcome _ _ _ _ _ _
  · intro α m req up
    cases hv : getDiscussionCommentsValidate req with
    | error e =>
      rw [getDiscussionCommentsHandler_err m req up e hv]
      exact Or.inl ⟨by simp [paramErrorRun], rfl⟩
    | ok args =>
      rw [getDiscussionCommentsHandler_ok m req up args hv]
      exact networkPhase_validOutcome _ _ _ _ _ _
  · intro α m req up
    cases hv : addDiscussionCommentValidate req with
    | error e =>
      rw [addDiscussionCommentHandler_err m req up e hv]
      exact Or.inl ⟨by simp [paramErrorRun], rfl⟩
    | ok args =>
      rw [addDiscussionCommentHandler_ok m req up args hv]
      exact networkPhase_validOutcome _ _ _ _ _ _
  · intro α m req up
    cases hv : createDiscussionValidate req with
    | error e =>
      rw [createDiscussionHandler_err m req up e hv]
      exact Or.inl ⟨by simp [paramErrorRun], rfl⟩
    | ok args =>
      rw [createDiscussionHandler_ok m req up args hv]
      exact networkPhase_validOutcome _ _ _ _ _ _

/-- C6: for the three paginated operations (list_discussions,
get_discussion_categories, get_discussion_comments), supplied page and
perPage parameter values are copied unchanged into the page and per-page
option fields of the validated arguments passed to the upstream request. -/
theorem c6_pagination_forwarded_unchanged :
    (∀ (req : Request) (args : ListDiscussionsArgs) (p pp : Int),
      listDiscussionsValidate req = .ok args →
      lookupArg req "page" = some (.num p) →
      lookupArg req "perPage" = some (.num pp) →
      args.opts.listOptions = { page := p, perPage := pp }) ∧
    (∀ (req : Request) (args : GetDiscussionCategoriesArgs) (p pp : Int),
      getDiscussionCategoriesValidate req = .ok args →
      lookupArg req "page" = some (.num p) →
      lookupArg req "perPage" = some (.num pp) →
      args.opts = { page := p, perPage := pp }) ∧
    (∀ (req : Request) (args : GetDiscussionCommentsArgs) (p pp : Int),
      getDiscussionCommentsValidate req = .ok args →
      lookupArg req "page" = some (.num p) →
      lookupArg req "perPage" = some (.num pp) →
      args.opts.listOptions = { page := p, perPage := pp }) := by
  refine ⟨?_, ?_, ?_⟩
  · intro req args p pp hv hp hpp
    have hpag : OptionalPaginationParams req = .ok { page := p, perPage := pp } := by
      unfold OptionalPaginationParams OptionalIntParam
      rw [hp, hpp]
    unfold listDiscussionsValidate at hv
    cases h1 : requiredStringParam req "owner" with
    | error e => simp [h1] at hv
    | ok o =>
    cases h2 : requiredStringParam req "repo" with
    | error e => simp [h1, h2] at hv
    | ok r =>
    cases h3 : OptionalStringParam req "direction" with
    | error e => simp [h1, h2, h3] at hv
    | ok d =>
    cases h4 : OptionalStringParam req "category_id" with
    | error e => simp [h1, h2, h3, h4] at hv
    | ok c =>
    cases h5 : OptionalStringParam req "pinned" with
    | error e => simp [h1, h2, h3, h4, h5] at hv
    | ok pi =>
      simp only [h1, h2, h3, h4, h5, hpag, Except.ok.injEq] at hv
      rw [← hv]
  · intro req args p pp hv hp hpp
    have hpag : OptionalPaginationParams req = .ok { page := p, perPage := pp } := by
      unfold OptionalPaginationParams OptionalIntParam
      rw [hp, hpp]
    unfold getDiscussionCategoriesValidate at hv
    cases h1 : requiredStringParam req "owner" with
    | error e => simp [h1] at hv
    | ok o =>
    cases h2 : requiredStringParam req "repo" with
    | error e => simp [h1, h2] at hv
    | ok r =>
      simp only [h1, h2, hpag, Except.ok.injEq] at hv
      rw [← hv]
  · intro req args p pp hv hp hpp
    have hpag : OptionalPaginationParams req = .ok { page := p, perPage := pp } := by
      unfold OptionalPaginationParams OptionalIntParam
      rw [hp, hpp]
    unfold getDiscussionCommentsValidate at hv
    cases h1 : requiredStringParam req "owner" with
    | error e => simp [h1] at hv
    | ok o =>
    cases h2 : requiredStringParam req "repo" with
    | error e => simp [h1, h2] at hv
    | ok r =>
    cases h3 : RequiredInt req "discussion_number" with
    | error e => simp [h1, h2, h3] at hv
    | ok dn =>
      simp only [h1, h2, h3, hpag, Except.ok.injEq] at hv
      rw [← hv]

/-- A concrete list_discussions / get_discussion_categories request
supplying page 2 and perPage 10. -/
def reqListPag : Request :=
  [("owner", .str "o"), ("repo", .str "r"), ("page", .num 2), ("perPage", .num 10)]

/-- A concrete get_discussion_comments request supplying page 2 and
perPage 10. -/
def reqComPag : Request :=
  [("owner", .str "o"), ("repo", .str "r"), ("discussion_number", .num 7),
   ("page", .num 2), ("perPage", .num 10)]

/-- The validated arguments of reqListPag for list_discussions. -/
def argsListPag : ListDiscussionsArgs :=
  { owner := "o", repo := "r",
    opts := { direction := "", categoryID := "", pinned := none,
              listOptions := { page := 2, perPage := 10 } } }

/-- The validated arguments of reqListPag for get_discussion_categories. -/
def argsCatPag : GetDiscussionCategoriesArgs :=
  { owner := "o", repo := "r", opts := { page := 2, perPage := 10 } }

/-- The validated arguments of reqComPag for get_discussion_comments. -/
def argsComPag : GetDiscussionCommentsArgs :=
  { owner := "o", repo := "r", discussionNumber := 7,
    opts := { listOptions := { page := 2, perPage := 10 } } }

/-- C6 witness: page 2 and perPage 10 reach the option fields unchanged in
all three paginated operations. -/
theorem c6_witness :
    argsListPag.opts.listOptions = ({ page := 2, perPage := 10 } : ListOptions) ∧
    argsCatPag.opts = ({ page := 2, perPage := 10 } : ListOptions) ∧
    argsComPag.opts.listOptions = ({ page := 2, perPage := 10 } : ListOptions) :=
  ⟨c6_pagination_forwarded_unchanged.1 reqListPag argsListPag 2 10 rfl rfl rfl,
   c6_pagination_forwarded_unchanged.2.1 reqListPag argsCatPag 2 10 rfl rfl rfl,
   c6_pagination_forwarded_unchanged.2.2 reqComPag argsComPag 2 10 rfl rfl rfl⟩

/-- A concrete upstream environment in which client acquisition fails. -/
def upNoClient : Upstream Unit :=
  { getClientErr := some "no credentials", callErr := none, status := 0,
    bodyReadErr := none, body := "", payload := () }

/-- C7 counterexample: a get_discussion invocation that passes parameter
validation issues zero upstream requests — not exactly one — when client
acquisition fails, returning a wrapped hard error instead. -/
theorem c7_counterexample :
    getDiscussionValidate reqGetMin = .ok argsGetMin ∧
    (getDiscussionHandler mU reqGetMin upNoClient).calls = [] ∧
    (getDiscussionHandler mU reqGetMin upNoClient).goErr =
      some ("failed to get GitHub client: " ++ "no credentials") :=
  ⟨rfl, rfl, rfl⟩

/-- C7 (amended): for every operation and every invocation that passes
parameter validation, if the upstream client is obtained successfully the
handler issues exactly one request — never zero, never a retry — carrying
the validated arguments; if client acquisition fails, no request is
issued. -/
theorem c7_exactly_one_request :
    (∀ (α : Type) (m : α → Except String String) (req : Request) (up : Upstream α)
      (args : ListDiscussionsArgs),
      listDiscussionsValidate req = .ok args →
      (up.getClientErr = none → (listDiscussionsHandler m req up).calls = [args]) ∧
      (∀ e, up.getClientErr = some e → (listDiscussionsHandler m req up).calls = [])) ∧
    (∀ (α : Type) (m : α → Except String String) (req : Request) (up : Upstream α)
      (args : GetDiscussionArgs),
      getDiscussionValidate req = .ok args →
      (up.getClientErr = none → (getDiscussionHandler m req up).calls = [args]) ∧
      (∀ e, up.getClientErr = some e → (getDiscussionHandler m req up).calls = [])) ∧
    (∀ (α : Type) (m : α → Except String String) (req : Request) (up : Upstream α)
      (args : GetDiscussionCategoriesArgs),
      getDiscussionCategoriesValidate req = .ok args →
      (up.getClientErr = none → (getDiscussionCategoriesHandler m req up).calls = [args]) ∧
      (∀ e, up.getClientErr = some e →
        (getDiscussionCategoriesHandler m req up).calls = [])) ∧
    (∀ (α : Type) (m : α → Except String String) (req : Request) (up : Upstream α)
      (args : GetDiscussionCommentsArgs),
      getDiscussionCommentsValidate req = .ok args →
      (up.getClientErr = none → (getDiscussionCommentsHandler m req up).calls = [args]) ∧
      (∀ e, up.getClientErr = some e →
        (getDiscussionCommentsHandler m req up).calls = [])) ∧
    (∀ (α : Type) (m : α → Except String String) (req : Request) (up : Upstream α)
      (args : AddDiscussionCommentArgs),
      addDiscussionCommentValidate req = .ok args →
      (up.getClientErr = none → (addDiscussionCommentHandler m req up).calls = [args]) ∧
      (∀ e, up.getClientErr = some e →
        (addDiscussionCommentHandler m req up).calls = [])) ∧
    (∀ (α : Type) (m : α → Except String String) (req : Request) (up : Upstream α)
      (args : CreateDiscussionArgs),
      createDiscussionValidate req = .ok args →
      (up.getClientErr = none → (createDiscussionHandler m req up).calls = [args]) ∧
      (∀ e, up.getClientErr = some e → (createDiscussionHandler m req up).calls = [])) := by
  refine ⟨?_, ?_, ?_, ?_, ?_, ?_⟩ <;>
  · intro α m req up args hv
    constructor
    · intro hg
      first
      | rw [listDiscussionsHandler_ok m req up args hv]
      | rw [getDiscussionHandler_ok m req up args hv]
      | rw [getDiscussionCategoriesHandler_ok m req up args hv]
      | rw [getDiscussionCommentsHandler_ok m req up args hv]
      | rw [addDiscussionCommentHandler_ok m req up args hv]
      | rw [createDiscussionHandler_ok m req up args hv]
      exact networkPhase_calls _ _ _ _ _ _ hg
    · intro e hg
      first
      | rw [listDiscussionsHandler_ok m req up args hv]
      | rw [getDiscussionHandler_ok m req up args hv]
      | rw [getDiscussionCategoriesHandler_ok m req up args hv]
      | rw [getDiscussionCommentsHandler_ok m req up args hv]
      | rw [addDiscussionCommentHandler_ok m req up args hv]
      | rw [createDiscussionHandler_ok m req up args hv]
      rw [networkPhase_clientErr _ _ _ _ _ _ _ hg]

/-- C7 witness: each of the six handlers, fed a valid request and a
successfully obtained client, issues exactly the one upstream request
carrying its validated arguments. -/
theorem c7_witness :
    (listDiscussionsHandler mU reqListMin upU).calls = [argsListMin] ∧
    (getDiscussionHandler mU reqGetMin upU).calls = [argsGetMin] ∧
    (getDiscussionCategoriesHandler mU reqListMin upU).calls = [argsCategoriesMin] ∧
    (getDiscussionCommentsHandler mU reqGetMin upU).calls = [argsCommentsMin] ∧
    (addDiscussionCommentHandler mU reqAddMin up201).calls = [argsAddMin] ∧
    (createDiscussionHandler mU reqCreateMin up201).calls = [argsCreateMin] :=
  ⟨(c7_exactly_one_request.1 Unit mU reqListMin upU argsListMin rfl).1 rfl,
   (c7_exactly_one_request.2.1 Unit mU reqGetMin upU argsGetMin rfl).1 rfl,
   (c7_exactly_one_request.2.2.1 Unit mU reqListMin upU argsCategoriesMin rfl).1 rfl,
   (c7_exactly_one_request.2.2.2.1 Unit mU reqGetMin upU argsCommentsMin rfl).1 rfl,
   (c7_exactly_one_request.2.2.2.2.1 Unit mU reqAddMin up201 argsAddMin rfl).1 rfl,
   (c7_exactly_one_request.2.2.2.2.2 Unit mU reqCreateMin up201 argsCreateMin rfl).1 rfl⟩

/-- C10: in list_discussions, an optional filter supplied as an unusable
string is silently treated as absent rather than rejected, each filter
independently: whenever validation produces arguments, a direction or
category_id supplied as the empty string leaves the corresponding option
field at its zero value, and a pinned value other than exactly true or
false leaves no pinned filter; and no combination of supplied filter
strings — usable or not, each filter independently absent or present —
causes a handler-level error. -/
theorem c10_unusable_filters_silently_dropped :
    (∀ (req : Request) (args : ListDiscussionsArgs),
      listDiscussionsValidate req = .ok args →
      (lookupArg req "direction" = some (.str "") → args.opts.direction = "") ∧
      (lookupArg req "category_id" = some (.str "") → args.opts.categoryID = "") ∧
      (∀ s, lookupArg req "pinned" = some (.str s) → s ≠ "true" → s ≠ "false" →
        args.opts.pinned = none)) ∧
    (∀ (req : Request) (o r : String) (pag : PaginationParams),
      lookupArg req "owner" = some (.str o) → o ≠ "" →
      lookupArg req "repo" = some (.str r) → r ≠ "" →
      (lookupArg req "direction" = none ∨
        ∃ d, lookupArg req "direction" = some (.str d)) →
      (lookupArg req "category_id" = none ∨
        ∃ c, lookupArg req "category_id" = some (.str c)) →
      (lookupArg req "pinned" = none ∨
        ∃ s, lookupArg req "pinned" = some (.str s)) →
      OptionalPaginationParams req = .ok pag →
      ∃ args, listDiscussionsValidate req = .ok args) := by
  constructor
  · intro req args hv
    unfold listDiscussionsValidate at hv
    cases h1 : requiredStringParam req "owner" with
    | error e => simp [h1] at hv
    | ok o =>
    cases h2 : requiredStringParam req "repo" with
    | error e => simp [h1, h2] at hv
    | ok r =>
    cases h3 : OptionalStringParam req "direction" with
    | error e => simp [h1, h2, h3] at hv
    | ok d =>
    cases h4 : OptionalStringParam req "category_id" with
    | error e => simp [h1, h2, h3, h4] at hv
    | ok c =>
    cases h5 : OptionalStringParam req "pinned" with
    | error e => simp [h1, h2, h3, h4, h5] at hv
    | ok pi =>
    cases h6 : OptionalPaginationParams req with
    | error e => simp [h1, h2, h3, h4, h5, h6] at hv
    | ok pag =>
      simp only [h1, h2, h3, h4, h5, h6, Except.ok.injEq] at hv
      refine ⟨?_, ?_, ?_⟩
      · intro hd
        unfold OptionalStringParam at h3
        rw [hd] at h3
        simp at h3
        subst h3
        rw [← hv]
        simp [apply_ite DiscussionListOptions.direction]
      · intro hc
        unfold OptionalStringParam at h4
        rw [hc] at h4
        simp at h4
        subst h4
        rw [← hv]
        simp [apply_ite DiscussionListOptions.categoryID]
      · intro s hpi hs1 hs2
        unfold OptionalStringParam at h5
        rw [hpi] at h5
        simp at h5
        subst h5
        rw [← hv]
        simp [apply_ite DiscussionListOptions.pinned, hs1, hs2]
  · intro req o r pag ho ho' hr hr' hdir hcat hpin hpag
    have h1 : requiredStringParam req "owner" = .ok o := by
      unfold requiredStringParam
      rw [ho]
      simp [ho']
    have h2 : requiredStringParam req "repo" = .ok r := by
      unfold requiredStringParam
      rw [hr]
      simp [hr']
    have h3 : ∃ d, OptionalStringParam req "direction" = .ok d := by
      rcases hdir with h | ⟨d, h⟩
      · exact ⟨"", by unfold OptionalStringParam; rw [h]⟩
      · exact ⟨d, by unfold OptionalStringParam; rw [h]⟩
    have h4 : ∃ c, OptionalStringParam req "category_id" = .ok c := by
      rcases hcat with h | ⟨c, h⟩
      · exact ⟨"", by unfold OptionalStringParam; rw [h]⟩
      · exact ⟨c, by unfold OptionalStringParam; rw [h]⟩
    have h5 : ∃ pi, OptionalStringParam req "pinned" = .ok pi := by
      rcases hpin with h | ⟨s, h⟩
      · exact ⟨"", by unfold OptionalStringParam; rw [h]⟩
      · exact ⟨s, by unfold OptionalStringParam; rw [h]⟩
    obtain ⟨d, h3⟩ := h3
    obtain ⟨c, h4⟩ := h4
    obtain ⟨pi, h5⟩ := h5
    unfold listDiscussionsValidate
    rw [h1, h2, h3, h4, h5, hpag]
    exact ⟨_, rfl⟩

/-- A concrete list_discussions request supplying only an empty direction
filter besides the required parameters. -/
def reqDirOnly : Request :=
  [("owner", .str "o"), ("repo", .str "r"), ("direction", .str "")]

/-- A concrete list_discussions request supplying only an empty category
filter besides the required parameters. -/
def reqCatOnly : Request :=
  [("owner", .str "o"), ("repo", .str "r"), ("category_id", .str "")]

/-- A concrete list_discussions request supplying only an unusable pinned
filter besides the required parameters. -/
def reqPinOnly : Request :=
  [("owner", .str "o"), ("repo", .str "r"), ("pinned", .str "maybe")]

/-- C10 witness: each unusable filter supplied alone — only direction =
"", only category_id = "", or only pinned = maybe — validates successfully
with the corresponding option field at its zero value. -/
theorem c10_witness :
    (listDiscussionsValidate reqDirOnly = .ok argsListMin ∧
      argsListMin.opts.direction = "") ∧
    (listDiscussionsValidate reqCatOnly = .ok argsListMin ∧
      argsListMin.opts.categoryID = "") ∧
    (listDiscussionsValidate reqPinOnly = .ok argsListMin ∧
      argsListMin.opts.pinned = none) ∧
    (∃ args, listDiscussionsValidate reqPinOnly = .ok args) :=
  ⟨⟨rfl, (c10_unusable_filters_silently_dropped.1 reqDirOnly argsListMin rfl).1 rfl⟩,
   ⟨rfl, (c10_unusable_filters_silently_dropped.1 reqCatOnly argsListMin rfl).2.1 rfl⟩,
   ⟨rfl, (c10_unusable_filters_silently_dropped.1 reqPinOnly argsListMin rfl).2.2 "maybe"
      rfl (by decide) (by decide)⟩,
   c10_unusable_filters_silently_dropped.2 reqPinOnly "o" "r" { page := 0, perPage := 0 }
      rfl (by decide) rfl (by decide) (Or.inl rfl) (Or.inl rfl)
      (Or.inr ⟨"maybe", rfl⟩) rfl⟩
